import Mathlib

/-!
Verification of the user controller of a theme/plugin marketplace backend
(`src/api/controllers/userController.ts`).

The relational store is embedded as explicit lists of rows; the Sequelize
transaction combinator is embedded by its documented contract: the callback's
database writes are committed when the callback returns normally and rolled
back (leaving the store unchanged) when it throws, in which case the handler's
`catch` block runs.  A possible unexpected database failure inside a request is
injected through an explicit `dbFail : Bool` parameter: `dbFail = true` means
some database operation of the request throws.

Responses are embedded as the list of response-send calls the handler makes,
in order (`sendErrorResponse` / `sendSuccessResponse` each append one entry).
At the HTTP layer only the first send reaches the client (Express refuses to
write headers twice), so the effective status of a request is the status of the
head of that list.
-/

namespace UserController

/-- Theme data stored in the backend, from the `ThemeData` interface
(id, name, description, favoritesCount, versionsCount); a `userId` owner
column is added because `getUserThemes` queries `Theme.findAll` filtered by
`userId`.  `favoritesCount` is an integer column, so `Int`.  Plugin rows
carry the same columns (spec section 3 lists Theme / Plugin together), so the
same structure embeds both tables. -/
structure ThemeData where
  id : String
  name : String
  description : String
  favoritesCount : Int
  versionsCount : Nat
  userId : String
deriving DecidableEq, Repr

/-- A `FavoriteTheme` / `FavoritePlugin` join row as the controller writes it:
`create({ userId: userData.id, id: themeId })` — the favorited entity's id is
stored in the column named `id`. -/
structure FavoriteRow where
  userId : String
  id : String
deriving DecidableEq, Repr

/-- The relational store: the four tables the controller touches. -/
structure DB where
  themes : List ThemeData
  plugins : List ThemeData
  favoriteThemes : List FavoriteRow
  favoritePlugins : List FavoriteRow
deriving DecidableEq, Repr

/-- One response-send call (`sendErrorResponse` / `sendSuccessResponse`):
HTTP status and message. -/
structure Rsp where
  status : Nat
  message : String
deriving DecidableEq, Repr

/-- `req.userData` as the controller uses it: the user's id and whatever
`checkIsAdminUser` inspects, reduced to the admin bit. -/
structure UserData where
  id : String
  isAdmin : Bool
deriving DecidableEq, Repr

/-- Modelled from the spec: `checkIsAdminUser` lives in
`services/authorization` which is not part of this slice; the spec only says
admins may retrieve other users' data, so the check is embedded as reading an
admin flag attached to the authenticated user. -/
def checkIsAdminUser (u : UserData) : Bool := u.isAdmin

/-- Result of a mutating handler: the store after the request, every
response-send call made (in order), and every `Logger.error` call made. -/
structure MutOut where
  db : DB
  sends : List Rsp
  logs : List String
deriving DecidableEq, Repr

/-- The status the client observes: Express writes only the first response;
any later send on the same request fails to reach the wire. -/
def firstStatus (sends : List Rsp) : Option Nat :=
  sends.head?.map Rsp.status

/-- The body of the `sequelize.transaction` callback of `addUserFavoriteTheme`:
look up the theme by primary key (404 early return if absent), look up an
existing favorite row for `(userData.id, themeId)` (400 early return if
present), otherwise insert the join row and increment the theme's
`favoritesCount` by 1.  Returns the store as committed and the response sends
made inside the callback. -/
def addFavoriteThemeTxn (db : DB) (uid themeId : String) : DB × List Rsp :=
  match db.themes.find? (fun t => t.id == themeId) with
  | none => (db, [⟨404, "Theme not found."⟩])
  | some _ =>
    match db.favoriteThemes.find? (fun f => f.userId == uid && f.id == themeId) with
    | some _ => (db, [⟨400, "Theme already favorited."⟩])
    | none =>
      ({ db with
          favoriteThemes := db.favoriteThemes ++ [⟨uid, themeId⟩],
          themes := db.themes.map (fun t =>
            if t.id == themeId then { t with favoritesCount := t.favoritesCount + 1 } else t) },
       [])

/-- `addUserFavoriteTheme`: on a database failure the transaction rolls back,
the error is logged and a 500 is sent; otherwise the transaction callback runs
and commits, after which the handler unconditionally sends the 201 success
response — including after the callback's 404/400 early returns, since those
return normally from the callback rather than aborting the handler. -/
def addUserFavoriteTheme (db : DB) (userData : UserData) (themeId : String)
    (dbFail : Bool) : MutOut :=
  if dbFail then
    ⟨db, [⟨500, "Failed to add favorite theme."⟩], ["Error adding favorite theme:"]⟩
  else
    let r := addFavoriteThemeTxn db userData.id themeId
    ⟨r.1, r.2 ++ [⟨201, "Added theme to favorites successfully."⟩], []⟩

/-- The body of the `sequelize.transaction` callback of
`removeUserFavoriteTheme`: look up the favorite row for
`(userData.id, themeId)` (404 early return if absent), otherwise destroy that
row, then look up the theme by primary key and decrement its `favoritesCount`
by 1 only if the theme was found. -/
def removeFavoriteThemeTxn (db : DB) (uid themeId : String) : DB × List Rsp :=
  match db.favoriteThemes.find? (fun f => f.userId == uid && f.id == themeId) with
  | none => (db, [⟨404, "Favorite theme not found."⟩])
  | some _ =>
    let favs := db.favoriteThemes.eraseP (fun f => f.userId == uid && f.id == themeId)
    match db.themes.find? (fun t => t.id == themeId) with
    | some _ =>
      ({ db with
          favoriteThemes := favs,
          themes := db.themes.map (fun t =>
            if t.id == themeId then { t with favoritesCount := t.favoritesCount - 1 } else t) },
       [])
    | none => ({ db with favoriteThemes := favs }, [])

/-- `removeUserFavoriteTheme`: rollback, log and 500 on database failure;
otherwise run and commit the callback, then unconditionally send the 200
success response (also after the callback's 404 early return). -/
def removeUserFavoriteTheme (db : DB) (userData : UserData) (themeId : String)
    (dbFail : Bool) : MutOut :=
  if dbFail then
    ⟨db, [⟨500, "Failed to remove favorite theme."⟩], ["Error removing favorite theme:"]⟩
  else
    let r := removeFavoriteThemeTxn db userData.id themeId
    ⟨r.1, r.2 ++ [⟨200, "Removed theme from favorites successfully."⟩], []⟩

/-- The body of the `sequelize.transaction` callback of
`addUserFavoritePlugin`; same shape as the theme version, over the plugin
tables. -/
def addFavoritePluginTxn (db : DB) (uid pluginId : String) : DB × List Rsp :=
  match db.plugins.find? (fun p => p.id == pluginId) with
  | none => (db, [⟨404, "Plugin not found."⟩])
  | some _ =>
    match db.favoritePlugins.find? (fun f => f.userId == uid && f.id == pluginId) with
    | some _ => (db, [⟨400, "Plugin already favorited."⟩])
    | none =>
      ({ db with
          favoritePlugins := db.favoritePlugins ++ [⟨uid, pluginId⟩],
          plugins := db.plugins.map (fun p =>
            if p.id == pluginId then { p with favoritesCount := p.favoritesCount + 1 } else p) },
       [])

/-- `addUserFavoritePlugin`: same shape as `addUserFavoriteTheme`. -/
def addUserFavoritePlugin (db : DB) (userData : UserData) (pluginId : String)
    (dbFail : Bool) : MutOut :=
  if dbFail then
    ⟨db, [⟨500, "Failed to add favorite plugin."⟩], ["Error adding favorite plugin:"]⟩
  else
    let r := addFavoritePluginTxn db userData.id pluginId
    ⟨r.1, r.2 ++ [⟨201, "Added plugin to favorites successfully."⟩], []⟩

/-- The body of the `sequelize.transaction` callback of
`removeUserFavoritePlugin`; same shape as the theme version. -/
def removeFavoritePluginTxn (db : DB) (uid pluginId : String) : DB × List Rsp :=
  match db.favoritePlugins.find? (fun f => f.userId == uid && f.id == pluginId) with
  | none => (db, [⟨404, "Favorite plugin not found."⟩])
  | some _ =>
    let favs := db.favoritePlugins.eraseP (fun f => f.userId == uid && f.id == pluginId)
    match db.plugins.find? (fun p => p.id == pluginId) with
    | some _ =>
      ({ db with
          favoritePlugins := favs,
          plugins := db.plugins.map (fun p =>
            if p.id == pluginId then { p with favoritesCount := p.favoritesCount - 1 } else p) },
       [])
    | none => ({ db with favoritePlugins := favs }, [])

/-- `removeUserFavoritePlugin`: same shape as `removeUserFavoriteTheme`. -/
def removeUserFavoritePlugin (db : DB) (userData : UserData) (pluginId : String)
    (dbFail : Bool) : MutOut :=
  if dbFail then
    ⟨db, [⟨500, "Failed to remove favorite plugin."⟩], ["Error removing favorite plugin:"]⟩
  else
    let r := removeFavoritePluginTxn db userData.id pluginId
    ⟨r.1, r.2 ++ [⟨200, "Removed plugin from favorites successfully."⟩], []⟩

/-- JavaScript truthiness of the `userId` query parameter: `undefined`
(absent) and the empty string are falsy. -/
def isTruthy : Option String → Bool
  | none => false
  | some s => !(s == "")

/-- The shared authorization guard of the four fetch handlers:
`!queryUserId || queryUserId === sessionUserId || checkIsAdminUser(userData)`. -/
def fetchAuthOk (queryUserId : Option String) (sessionUserId : String)
    (userData : UserData) : Bool :=
  !(isTruthy queryUserId) || (queryUserId == some sessionUserId) ||
    checkIsAdminUser userData

/-- Result of a fetch handler: the (single) response's status and message,
the data payload it carries if it is a success response, and every
`Logger.error` call made. -/
structure FetchOut (α : Type) where
  status : Nat
  data : Option α
  message : String
  logs : List String
deriving DecidableEq, Repr

/-- `getUserProfile`: if authorized, 200 with the session user's data;
otherwise 403.  No database access, no logging. -/
def getUserProfile (userData : UserData) (queryUserId : Option String)
    (sessionUserId : String) : FetchOut UserData :=
  if fetchAuthOk queryUserId sessionUserId userData then
    ⟨200, some userData, "User data fetched successfully.", []⟩
  else
    ⟨403, none, "Unauthorized access.", []⟩

/-- `getUserThemes`: if authorized, `Theme.findAll` filtered by
`userId = userData.id` and a 200 with the rows; a thrown query is swallowed by
the empty `catch` so control falls through to the 403 send; unauthorized
requests also get 403.  Nothing is ever logged. -/
def getUserThemes (db : DB) (userData : UserData) (queryUserId : Option String)
    (sessionUserId : String) (dbFail : Bool) : FetchOut (List ThemeData) :=
  if fetchAuthOk queryUserId sessionUserId userData then
    if dbFail then
      ⟨403, none, "Unauthorized access.", []⟩
    else
      ⟨200, some (db.themes.filter (fun t => t.userId == userData.id)),
        "User themes fetched successfully.", []⟩
  else
    ⟨403, none, "Unauthorized access.", []⟩

/-- `getUserFavoriteThemes`: if authorized, `FavoriteTheme.findAll` filtered by
`userId = userData.id` with `include: [Theme]` (each row carries its parent
theme, looked up by the stored entity id) and a 200 with the rows; a thrown
query falls through to the 403 send; unauthorized requests get 403.  Nothing
is ever logged. -/
def getUserFavoriteThemes (db : DB) (userData : UserData)
    (queryUserId : Option String) (sessionUserId : String) (dbFail : Bool) :
    FetchOut (List (FavoriteRow × Option ThemeData)) :=
  if fetchAuthOk queryUserId sessionUserId userData then
    if dbFail then
      ⟨403, none, "Unauthorized access.", []⟩
    else
      ⟨200, some ((db.favoriteThemes.filter (fun f => f.userId == userData.id)).map
          (fun f => (f, db.themes.find? (fun t => t.id == f.id)))),
        "User favorite themes fetched successfully.", []⟩
  else
    ⟨403, none, "Unauthorized access.", []⟩

/-- `getUserFavoritePlugins`: same shape as `getUserFavoriteThemes`, over the
plugin tables. -/
def getUserFavoritePlugins (db : DB) (userData : UserData)
    (queryUserId : Option String) (sessionUserId : String) (dbFail : Bool) :
    FetchOut (List (FavoriteRow × Option ThemeData)) :=
  if fetchAuthOk queryUserId sessionUserId userData then
    if dbFail then
      ⟨403, none, "Unauthorized access.", []⟩
    else
      ⟨200, some ((db.favoritePlugins.filter (fun f => f.userId == userData.id)).map
          (fun f => (f, db.plugins.find? (fun p => p.id == f.id)))),
        "User favorite plugins fetched successfully.", []⟩
  else
    ⟨403, none, "Unauthorized access.", []⟩

/-- The spec's data-model invariant for themes: each theme's denormalized
`favoritesCount` equals the number of `FavoriteTheme` rows referencing it. -/
def themesConsistent (db : DB) : Prop :=
  ∀ t ∈ db.themes,
    t.favoritesCount = (db.favoriteThemes.countP (fun f => f.id == t.id) : Int)

/-- The spec's data-model invariant for plugins. -/
def pluginsConsistent (db : DB) : Prop :=
  ∀ p ∈ db.plugins,
    p.favoritesCount = (db.favoritePlugins.countP (fun f => f.id == p.id) : Int)

/-- The full favorites-count invariant of spec section 3. -/
def favoritesInvariant (db : DB) : Prop :=
  themesConsistent db ∧ pluginsConsistent db

/-- Erasing the first `q`-match removes exactly one `p`-counted element when
every `q`-match is also a `p`-match. -/
theorem countP_eraseP_add_one {α : Type} (p q : α → Bool)
    (hpq : ∀ a, q a = true → p a = true) :
    ∀ l : List α, (∃ a ∈ l, q a = true) →
      (l.eraseP q).countP p + 1 = l.countP p := by
  intro l
  induction l with
  | nil => rintro ⟨a, ha, _⟩; exact absurd ha (List.not_mem_nil a)
  | cons x xs ih =>
    rintro ⟨a, ha, hqa⟩
    cases hx : q x with
    | true => simp [List.eraseP_cons, hx, List.countP_cons, hpq x hx]
    | false =>
      have hxs : ∃ a ∈ xs, q a = true := by
        rcases List.mem_cons.mp ha with rfl | h
        · rw [hqa] at hx; exact Bool.noConfusion hx
        · exact ⟨a, h, hqa⟩
      have h2 := ih hxs
      simp only [List.eraseP_cons, hx, cond_false, List.countP_cons]
      omega

/-- Erasing a first `q`-match never changes the `p`-count when no `q`-match is
a `p`-match. -/
theorem countP_eraseP_eq {α : Type} (p q : α → Bool)
    (hpq : ∀ a, q a = true → p a = false) :
    ∀ l : List α, (l.eraseP q).countP p = l.countP p := by
  intro l
  induction l with
  | nil => rfl
  | cons x xs ih =>
    cases hx : q x with
    | true => simp [List.eraseP_cons, hx, List.countP_cons, hpq x hx]
    | false => simp [List.eraseP_cons, hx, List.countP_cons, ih]

/-- Inserting a join row for `eid` and incrementing exactly the entities whose
id is `eid` preserves the counter/row-count consistency of a table pair. -/
theorem inc_preserves (entities : List ThemeData) (favs : List FavoriteRow)
    (uid eid : String)
    (hinv : ∀ t ∈ entities,
      t.favoritesCount = (favs.countP (fun f => f.id == t.id) : Int)) :
    ∀ t ∈ entities.map (fun t =>
        if t.id == eid then { t with favoritesCount := t.favoritesCount + 1 } else t),
      t.favoritesCount =
        (((favs ++ [FavoriteRow.mk uid eid]).countP (fun f => f.id == t.id) : Nat) : Int) := by
  intro t' ht'
  rcases List.mem_map.mp ht' with ⟨t, ht, rfl⟩
  have hc := hinv t ht
  by_cases h : t.id = eid
  · simp [h, List.countP_append, List.countP_cons] at hc ⊢
    omega
  · have hne : ¬(eid = t.id) := fun hh => h hh.symm
    simp [h, hne, List.countP_append, List.countP_cons, hc]

/-- Erasing the `(uid, eid)` join row and decrementing exactly the entities
whose id is `eid` preserves consistency, provided such a row exists. -/
theorem dec_preserves (entities : List ThemeData) (favs : List FavoriteRow)
    (uid eid : String)
    (hinv : ∀ t ∈ entities,
      t.favoritesCount = (favs.countP (fun f => f.id == t.id) : Int))
    (hex : ∃ f ∈ favs, (f.userId == uid && f.id == eid) = true) :
    ∀ t ∈ entities.map (fun t =>
        if t.id == eid then { t with favoritesCount := t.favoritesCount - 1 } else t),
      t.favoritesCount =
        (((favs.eraseP (fun f => f.userId == uid && f.id == eid)).countP
            (fun f => f.id == t.id) : Nat) : Int) := by
  intro t' ht'
  rcases List.mem_map.mp ht' with ⟨t, ht, rfl⟩
  have hc := hinv t ht
  by_cases h : t.id = eid
  · have hcount := countP_eraseP_add_one (fun f => f.id == eid)
      (fun f => f.userId == uid && f.id == eid)
      (fun f hf => ((Bool.and_eq_true _ _).mp hf).2) favs hex
    simp [h] at hc ⊢
    omega
  · have hne : ¬(eid = t.id) := fun hh => h hh.symm
    have hcount := countP_eraseP_eq (fun f => f.id == t.id)
      (fun f => f.userId == uid && f.id == eid)
      (fun f hf => by
        have hid : f.id = eid := beq_iff_eq.mp ((Bool.and_eq_true _ _).mp hf).2
        simp [hid, hne]) favs
    simp [h] at hc ⊢
    omega

/-- When no entity has id `eid`, erasing a join row for `eid` preserves
consistency of an untouched entity table. -/
theorem erase_absent_preserves (entities : List ThemeData)
    (favs : List FavoriteRow) (uid eid : String)
    (hinv : ∀ t ∈ entities,
      t.favoritesCount = (favs.countP (fun f => f.id == t.id) : Int))
    (hnone : ∀ t ∈ entities, (t.id == eid) = false) :
    ∀ t ∈ entities,
      t.favoritesCount =
        (((favs.eraseP (fun f => f.userId == uid && f.id == eid)).countP
            (fun f => f.id == t.id) : Nat) : Int) := by
  intro t ht
  have hne : ¬(eid = t.id) := by
    have hb := hnone t ht
    intro hh
    rw [← hh] at hb
    simp at hb
  have hcount := countP_eraseP_eq (fun f => f.id == t.id)
    (fun f => f.userId == uid && f.id == eid)
    (fun f hf => by
      have hid : f.id = eid := beq_iff_eq.mp ((Bool.and_eq_true _ _).mp hf).2
      simp [hid, hne]) favs
  rw [hcount]
  exact hinv t ht

/-- The add-theme transaction body preserves the favorites invariant. -/
theorem addFavoriteThemeTxn_inv (db : DB) (uid eid : String)
    (hinv : favoritesInvariant db) :
    favoritesInvariant (addFavoriteThemeTxn db uid eid).1 := by
  obtain ⟨hth, hpl⟩ := hinv
  cases hf : db.themes.find? (fun t => t.id == eid) with
  | none => simpa [addFavoriteThemeTxn, hf] using ⟨hth, hpl⟩
  | some t0 =>
    cases hg : db.favoriteThemes.find? (fun f => f.userId == uid && f.id == eid) with
    | some f0 => simpa [addFavoriteThemeTxn, hf, hg] using ⟨hth, hpl⟩
    | none =>
      refine ⟨?_, ?_⟩
      · intro t ht
        simp only [addFavoriteThemeTxn, hf, hg] at ht ⊢
        exact inc_preserves db.themes db.favoriteThemes uid eid hth t ht
      · intro p hp
        simp only [addFavoriteThemeTxn, hf, hg] at hp ⊢
        exact hpl p hp

/-- The remove-theme transaction body preserves the favorites invariant. -/
theorem removeFavoriteThemeTxn_inv (db : DB) (uid eid : String)
    (hinv : favoritesInvariant db) :
    favoritesInvariant (removeFavoriteThemeTxn db uid eid).1 := by
  obtain ⟨hth, hpl⟩ := hinv
  cases hg : db.favoriteThemes.find? (fun f => f.userId == uid && f.id == eid) with
  | none => simpa [removeFavoriteThemeTxn, hg] using ⟨hth, hpl⟩
  | some f0 =>
    have hex : ∃ f ∈ db.favoriteThemes, (f.userId == uid && f.id == eid) = true :=
      ⟨f0, List.mem_of_find?_eq_some hg, by have hpa := List.find?_some hg; exact hpa⟩
    cases hf : db.themes.find? (fun t => t.id == eid) with
    | some t0 =>
      refine ⟨?_, ?_⟩
      · intro t ht
        simp only [removeFavoriteThemeTxn, hg, hf] at ht ⊢
        exact dec_preserves db.themes db.favoriteThemes uid eid hth hex t ht
      · intro p hp
        simp only [removeFavoriteThemeTxn, hg, hf] at hp ⊢
        exact hpl p hp
    | none =>
      have hnone : ∀ t ∈ db.themes, (t.id == eid) = false := by
        intro t ht
        have h2 := List.find?_eq_none.mp hf t ht
        simpa using h2
      refine ⟨?_, ?_⟩
      · intro t ht
        simp only [removeFavoriteThemeTxn, hg, hf] at ht ⊢
        exact erase_absent_preserves db.themes db.favoriteThemes uid eid hth hnone t ht
      · intro p hp
        simp only [removeFavoriteThemeTxn, hg, hf] at hp ⊢
        exact hpl p hp

/-- The add-plugin transaction body preserves the favorites invariant. -/
theorem addFavoritePluginTxn_inv (db : DB) (uid eid : String)
    (hinv : favoritesInvariant db) :
    favoritesInvariant (addFavoritePluginTxn db uid eid).1 := by
  obtain ⟨hth, hpl⟩ := hinv
  cases hf : db.plugins.find? (fun p => p.id == eid) with
  | none => simpa [addFavoritePluginTxn, hf] using ⟨hth, hpl⟩
  | some p0 =>
    cases hg : db.favoritePlugins.find? (fun f => f.userId == uid && f.id == eid) with
    | some f0 => simpa [addFavoritePluginTxn, hf, hg] using ⟨hth, hpl⟩
    | none =>
      refine ⟨?_, ?_⟩
      · intro t ht
        simp only [addFavoritePluginTxn, hf, hg] at ht ⊢
        exact hth t ht
      · intro p hp
        simp only [addFavoritePluginTxn, hf, hg] at hp ⊢
        exact inc_preserves db.plugins db.favoritePlugins uid eid hpl p hp

/-- The remove-plugin transaction body preserves the favorites invariant. -/
theorem removeFavoritePluginTxn_inv (db : DB) (uid eid : String)
    (hinv : favoritesInvariant db) :
    favoritesInvariant (removeFavoritePluginTxn db uid eid).1 := by
  obtain ⟨hth, hpl⟩ := hinv
  cases hg : db.favoritePlugins.find? (fun f => f.userId == uid && f.id == eid) with
  | none => simpa [removeFavoritePluginTxn, hg] using ⟨hth, hpl⟩
  | some f0 =>
    have hex : ∃ f ∈ db.favoritePlugins, (f.userId == uid && f.id == eid) = true :=
      ⟨f0, List.mem_of_find?_eq_some hg, by have hpa := List.find?_some hg; exact hpa⟩
    cases hf : db.plugins.find? (fun p => p.id == eid) with
    | some p0 =>
      refine ⟨?_, ?_⟩
      · intro t ht
        simp only [removeFavoritePluginTxn, hg, hf] at ht ⊢
        exact hth t ht
      · intro p hp
        simp only [removeFavoritePluginTxn, hg, hf] at hp ⊢
        exact dec_preserves db.plugins db.favoritePlugins uid eid hpl hex p hp
    | none =>
      have hnone : ∀ p ∈ db.plugins, (p.id == eid) = false := by
        intro p hp
        have h2 := List.find?_eq_none.mp hf p hp
        simpa using h2
      refine ⟨?_, ?_⟩
      · intro t ht
        simp only [removeFavoritePluginTxn, hg, hf] at ht ⊢
        exact hth t ht
      · intro p hp
        simp only [removeFavoritePluginTxn, hg, hf] at hp ⊢
        exact erase_absent_preserves db.plugins db.favoritePlugins uid eid hpl hnone p hp

/-- C1: starting from any store in which every theme's and plugin's
`favoritesCount` equals the number of favorite rows referencing it, each of
the four favorite-mutating handlers — for any user, entity id and failure
behavior — yields a store that still satisfies the invariant: the join-row
insert/delete and the counter adjustment happen together inside the committed
transaction or not at all (rollback / early return). -/
theorem favoritesCount_invariant_preserved (db : DB) (u : UserData)
    (eid : String) (dbFail : Bool) (hinv : favoritesInvariant db) :
    favoritesInvariant (addUserFavoriteTheme db u eid dbFail).db ∧
    favoritesInvariant (removeUserFavoriteTheme db u eid dbFail).db ∧
    favoritesInvariant (addUserFavoritePlugin db u eid dbFail).db ∧
    favoritesInvariant (removeUserFavoritePlugin db u eid dbFail).db := by
  cases dbFail with
  | true =>
    simp only [addUserFavoriteTheme, removeUserFavoriteTheme,
      addUserFavoritePlugin, removeUserFavoritePlugin, if_true]
    exact ⟨hinv, hinv, hinv, hinv⟩
  | false =>
    simp only [addUserFavoriteTheme, removeUserFavoriteTheme,
      addUserFavoritePlugin, removeUserFavoritePlugin, Bool.false_eq_true,
      if_false]
    exact ⟨addFavoriteThemeTxn_inv db u.id eid hinv,
      removeFavoriteThemeTxn_inv db u.id eid hinv,
      addFavoritePluginTxn_inv db u.id eid hinv,
      removeFavoritePluginTxn_inv db u.id eid hinv⟩

/-- A concrete store satisfying the favorites invariant, for witnesses. -/
def dbW : DB :=
  { themes := [⟨"t1", "Terra", "a theme", 1, 2, "owner"⟩],
    plugins := [⟨"p1", "Pluto", "a plugin", 1, 1, "owner"⟩],
    favoriteThemes := [⟨"alice", "t1"⟩],
    favoritePlugins := [⟨"alice", "p1"⟩] }

/-- A concrete non-admin session user, for witnesses. -/
def userW : UserData := ⟨"bob", false⟩

/-- Witness for C1 at a concrete consistent store. -/
theorem favoritesCount_invariant_preserved_witness :
    favoritesInvariant dbW ∧
      (favoritesInvariant (addUserFavoriteTheme dbW userW "t1" false).db ∧
       favoritesInvariant (removeUserFavoriteTheme dbW userW "t1" false).db ∧
       favoritesInvariant (addUserFavoritePlugin dbW userW "t1" false).db ∧
       favoritesInvariant (removeUserFavoritePlugin dbW userW "t1" false).db) := by
  have hw : favoritesInvariant dbW := by
    unfold favoritesInvariant themesConsistent pluginsConsistent dbW
    decide
  exact ⟨hw, favoritesCount_invariant_preserved dbW userW "t1" false hw⟩

/-- A second concrete user who already favorited theme "t1" and plugin "p1"
in `dbW`, for witnesses. -/
def aliceW : UserData := ⟨"alice", false⟩

/-- C2 (code bug): on a store with no theme "t9" and no plugin "p9", the add
handlers send the 404 error response and then also invoke the 201 success
send: the `return` inside the transaction callback only leaves the callback,
which then commits, and the success send after `sequelize.transaction` runs
unconditionally — contradicting the handlers' docstrings, under which 404 and
201 are mutually exclusive outcomes. -/
theorem add_notFound_sends_404_then_201 :
    (addUserFavoriteTheme dbW userW "t9" false).sends =
      [⟨404, "Theme not found."⟩,
       ⟨201, "Added theme to favorites successfully."⟩] ∧
    (addUserFavoritePlugin dbW userW "p9" false).sends =
      [⟨404, "Plugin not found."⟩,
       ⟨201, "Added plugin to favorites successfully."⟩] := by
  constructor <;> rfl

/-- C3: if the entity exists and a favorite row for `(userId, entityId)`
already exists, a completed add-favorite call answers 400 (its effective —
first — response) and leaves the store unchanged. -/
theorem add_duplicate_400_unchanged (db : DB) (u : UserData) (eid : String) :
    ((∃ t ∈ db.themes, t.id = eid) →
      (∃ f ∈ db.favoriteThemes, f.userId = u.id ∧ f.id = eid) →
      firstStatus (addUserFavoriteTheme db u eid false).sends = some 400 ∧
        (addUserFavoriteTheme db u eid false).db = db) ∧
    ((∃ p ∈ db.plugins, p.id = eid) →
      (∃ f ∈ db.favoritePlugins, f.userId = u.id ∧ f.id = eid) →
      firstStatus (addUserFavoritePlugin db u eid false).sends = some 400 ∧
        (addUserFavoritePlugin db u eid false).db = db) := by
  constructor
  · rintro ⟨t, ht, htid⟩ ⟨f, hf, hfu, hfi⟩
    cases hfind : db.themes.find? (fun t => t.id == eid) with
    | none =>
      exact absurd (by simp [htid] : (t.id == eid) = true)
        (List.find?_eq_none.mp hfind t ht)
    | some t0 =>
      cases hffind : db.favoriteThemes.find?
          (fun g => g.userId == u.id && g.id == eid) with
      | none =>
        have h2 := List.find?_eq_none.mp hffind f hf
        simp [hfu, hfi] at h2
      | some f0 =>
        constructor
        · simp [addUserFavoriteTheme, addFavoriteThemeTxn, hfind, hffind,
            firstStatus]
        · simp [addUserFavoriteTheme, addFavoriteThemeTxn, hfind, hffind]
  · rintro ⟨p, hp, hpid⟩ ⟨f, hf, hfu, hfi⟩
    cases hfind : db.plugins.find? (fun p => p.id == eid) with
    | none =>
      exact absurd (by simp [hpid] : (p.id == eid) = true)
        (List.find?_eq_none.mp hfind p hp)
    | some p0 =>
      cases hffind : db.favoritePlugins.find?
          (fun g => g.userId == u.id && g.id == eid) with
      | none =>
        have h2 := List.find?_eq_none.mp hffind f hf
        simp [hfu, hfi] at h2
      | some f0 =>
        constructor
        · simp [addUserFavoritePlugin, addFavoritePluginTxn, hfind, hffind,
            firstStatus]
        · simp [addUserFavoritePlugin, addFavoritePluginTxn, hfind, hffind]

/-- Witness for C3: "alice" already favorited theme "t1" and plugin "p1". -/
theorem add_duplicate_400_unchanged_witness :
    (firstStatus (addUserFavoriteTheme dbW aliceW "t1" false).sends = some 400 ∧
      (addUserFavoriteTheme dbW aliceW "t1" false).db = dbW) ∧
    (firstStatus (addUserFavoritePlugin dbW aliceW "p1" false).sends = some 400 ∧
      (addUserFavoritePlugin dbW aliceW "p1" false).db = dbW) :=
  ⟨(add_duplicate_400_unchanged dbW aliceW "t1").1 (by decide) (by decide),
   (add_duplicate_400_unchanged dbW aliceW "p1").2 (by decide) (by decide)⟩

/-- C4: when no favorite row exists for `(userId, entityId)`, a completed
remove-favorite call answers 404 (its effective response) and leaves the
store unchanged. -/
theorem remove_missing_404_unchanged (db : DB) (u : UserData) (eid : String) :
    ((∀ f ∈ db.favoriteThemes, ¬(f.userId = u.id ∧ f.id = eid)) →
      firstStatus (removeUserFavoriteTheme db u eid false).sends = some 404 ∧
        (removeUserFavoriteTheme db u eid false).db = db) ∧
    ((∀ f ∈ db.favoritePlugins, ¬(f.userId = u.id ∧ f.id = eid)) →
      firstStatus (removeUserFavoritePlugin db u eid false).sends = some 404 ∧
        (removeUserFavoritePlugin db u eid false).db = db) := by
  constructor
  · intro hno
    cases hffind : db.favoriteThemes.find?
        (fun g => g.userId == u.id && g.id == eid) with
    | some f0 =>
      have hmem := List.mem_of_find?_eq_some hffind
      have hpa := List.find?_some hffind
      simp at hpa
      exact absurd ⟨hpa.1, hpa.2⟩ (hno f0 hmem)
    | none =>
      constructor
      · simp [removeUserFavoriteTheme, removeFavoriteThemeTxn, hffind,
          firstStatus]
      · simp [removeUserFavoriteTheme, removeFavoriteThemeTxn, hffind]
  · intro hno
    cases hffind : db.favoritePlugins.find?
        (fun g => g.userId == u.id && g.id == eid) with
    | some f0 =>
      have hmem := List.mem_of_find?_eq_some hffind
      have hpa := List.find?_some hffind
      simp at hpa
      exact absurd ⟨hpa.1, hpa.2⟩ (hno f0 hmem)
    | none =>
      constructor
      · simp [removeUserFavoritePlugin, removeFavoritePluginTxn, hffind,
          firstStatus]
      · simp [removeUserFavoritePlugin, removeFavoritePluginTxn, hffind]

/-- Witness for C4: "bob" has no favorites in `dbW`. -/
theorem remove_missing_404_unchanged_witness :
    (firstStatus (removeUserFavoriteTheme dbW userW "t1" false).sends = some 404 ∧
      (removeUserFavoriteTheme dbW userW "t1" false).db = dbW) ∧
    (firstStatus (removeUserFavoritePlugin dbW userW "p1" false).sends = some 404 ∧
      (removeUserFavoritePlugin dbW userW "p1" false).db = dbW) :=
  ⟨(remove_missing_404_unchanged dbW userW "t1").1 (by decide),
   (remove_missing_404_unchanged dbW userW "p1").2 (by decide)⟩

/-- C5: whenever the effective response of a favorite-mutating handler is one
of the error statuses 400, 404 or 500, the store after the request equals the
store before it: error early-returns happen before any write, and a thrown
transaction rolls back, so a partial update cannot survive. -/
theorem error_outcome_state_unchanged (db : DB) (u : UserData) (eid : String)
    (dbFail : Bool) (s : Nat) (hs : s = 400 ∨ s = 404 ∨ s = 500) :
    (firstStatus (addUserFavoriteTheme db u eid dbFail).sends = some s →
      (addUserFavoriteTheme db u eid dbFail).db = db) ∧
    (firstStatus (removeUserFavoriteTheme db u eid dbFail).sends = some s →
      (removeUserFavoriteTheme db u eid dbFail).db = db) ∧
    (firstStatus (addUserFavoritePlugin db u eid dbFail).sends = some s →
      (addUserFavoritePlugin db u eid dbFail).db = db) ∧
    (firstStatus (removeUserFavoritePlugin db u eid dbFail).sends = some s →
      (removeUserFavoritePlugin db u eid dbFail).db = db) := by
  have hs201 : s ≠ 201 := by rcases hs with rfl | rfl | rfl <;> decide
  have hs200 : s ≠ 200 := by rcases hs with rfl | rfl | rfl <;> decide
  refine ⟨?_, ?_, ?_, ?_⟩ <;> intro hfs
  · cases dbFail with
    | true => rfl
    | false =>
      cases hfind : db.themes.find? (fun t => t.id == eid) with
      | none => simp [addUserFavoriteTheme, addFavoriteThemeTxn, hfind]
      | some t0 =>
        cases hffind : db.favoriteThemes.find?
            (fun g => g.userId == u.id && g.id == eid) with
        | some f0 => simp [addUserFavoriteTheme, addFavoriteThemeTxn, hfind, hffind]
        | none =>
          simp [addUserFavoriteTheme, addFavoriteThemeTxn, hfind, hffind,
            firstStatus] at hfs
          exact absurd hfs.symm hs201
  · cases dbFail with
    | true => rfl
    | false =>
      cases hffind : db.favoriteThemes.find?
          (fun g => g.userId == u.id && g.id == eid) with
      | none => simp [removeUserFavoriteTheme, removeFavoriteThemeTxn, hffind]
      | some f0 =>
        simp [removeUserFavoriteTheme, removeFavoriteThemeTxn, hffind,
          firstStatus] at hfs
        cases hfind : db.themes.find? (fun t => t.id == eid) with
        | some t0 =>
          simp [hfind] at hfs
          exact absurd hfs.symm hs200
        | none =>
          simp [hfind] at hfs
          exact absurd hfs.symm hs200
  · cases dbFail with
    | true => rfl
    | false =>
      cases hfind : db.plugins.find? (fun p => p.id == eid) with
      | none => simp [addUserFavoritePlugin, addFavoritePluginTxn, hfind]
      | some p0 =>
        cases hffind : db.favoritePlugins.find?
            (fun g => g.userId == u.id && g.id == eid) with
        | some f0 => simp [addUserFavoritePlugin, addFavoritePluginTxn, hfind, hffind]
        | none =>
          simp [addUserFavoritePlugin, addFavoritePluginTxn, hfind, hffind,
            firstStatus] at hfs
          exact absurd hfs.symm hs201
  · cases dbFail with
    | true => rfl
    | false =>
      cases hffind : db.favoritePlugins.find?
          (fun g => g.userId == u.id && g.id == eid) with
      | none => simp [removeUserFavoritePlugin, removeFavoritePluginTxn, hffind]
      | some f0 =>
        simp [removeUserFavoritePlugin, removeFavoritePluginTxn, hffind,
          firstStatus] at hfs
        cases hfind : db.plugins.find? (fun p => p.id == eid) with
        | some p0 =>
          simp [hfind] at hfs
          exact absurd hfs.symm hs200
        | none =>
          simp [hfind] at hfs
          exact absurd hfs.symm hs200

/-- Witness for C5: entity id "zz" exists nowhere in `dbW`, so all four
handlers take a 404 outcome and leave the store untouched. -/
theorem error_outcome_state_unchanged_witness :
    (addUserFavoriteTheme dbW userW "zz" false).db = dbW ∧
    (removeUserFavoriteTheme dbW userW "zz" false).db = dbW ∧
    (addUserFavoritePlugin dbW userW "zz" false).db = dbW ∧
    (removeUserFavoritePlugin dbW userW "zz" false).db = dbW :=
  have h := error_outcome_state_unchanged dbW userW "zz" false 404
    (Or.inr (Or.inl rfl))
  ⟨h.1 (by decide), h.2.1 (by decide), h.2.2.1 (by decide), h.2.2.2 (by decide)⟩

/-- C6: a fetch request whose `userId` query parameter is present (truthy),
differs from the session user id, and comes from a non-admin user is answered
403 with no data by all four fetch handlers. -/
theorem fetch_unauthorized_403 (db : DB) (u : UserData) (q : Option String)
    (sess : String) (dbFail : Bool)
    (hq : isTruthy q = true) (hne : q ≠ some sess)
    (hadmin : checkIsAdminUser u = false) :
    ((getUserProfile u q sess).status = 403 ∧
      (getUserProfile u q sess).data = none) ∧
    ((getUserThemes db u q sess dbFail).status = 403 ∧
      (getUserThemes db u q sess dbFail).data = none) ∧
    ((getUserFavoriteThemes db u q sess dbFail).status = 403 ∧
      (getUserFavoriteThemes db u q sess dbFail).data = none) ∧
    ((getUserFavoritePlugins db u q sess dbFail).status = 403 ∧
      (getUserFavoritePlugins db u q sess dbFail).data = none) := by
  have hauth : fetchAuthOk q sess u = false := by
    simp [fetchAuthOk, hq, hadmin, hne]
  simp [getUserProfile, getUserThemes, getUserFavoriteThemes,
    getUserFavoritePlugins, hauth]

/-- Witness for C6: non-admin "bob" asks for user "carol"'s data. -/
theorem fetch_unauthorized_403_witness :
    ((getUserProfile userW (some "carol") "bob").status = 403 ∧
      (getUserProfile userW (some "carol") "bob").data = none) ∧
    ((getUserThemes dbW userW (some "carol") "bob" false).status = 403 ∧
      (getUserThemes dbW userW (some "carol") "bob" false).data = none) ∧
    ((getUserFavoriteThemes dbW userW (some "carol") "bob" false).status = 403 ∧
      (getUserFavoriteThemes dbW userW (some "carol") "bob" false).data = none) ∧
    ((getUserFavoritePlugins dbW userW (some "carol") "bob" false).status = 403 ∧
      (getUserFavoritePlugins dbW userW (some "carol") "bob" false).data = none) :=
  fetch_unauthorized_403 dbW userW (some "carol") "bob" false
    (by decide) (by decide) (by decide)

/-- C7 counterexample: with a database failure injected, `getUserThemes`
answers 403 — not 500 — and logs nothing: its empty `catch` swallows the
exception and control falls through to the unauthorized send. -/
theorem fetch_exception_swallowed_counterexample :
    (getUserThemes dbW userW none "bob" true).status = 403 ∧
    (getUserThemes dbW userW none "bob" true).status ≠ 500 ∧
    (getUserThemes dbW userW none "bob" true).logs = [] := by
  refine ⟨rfl, by decide, rfl⟩

/-- C7 as amended: an unexpected exception in the add/remove favorite
handlers is logged and surfaced as 500, whereas in the fetch handlers
`getUserThemes`, `getUserFavoriteThemes` and `getUserFavoritePlugins` it is
swallowed: they answer 403 and log nothing. -/
theorem exception_handling_by_handler (db : DB) (u : UserData) (eid : String)
    (q : Option String) (sess : String) :
    (firstStatus (addUserFavoriteTheme db u eid true).sends = some 500 ∧
      (addUserFavoriteTheme db u eid true).logs ≠ []) ∧
    (firstStatus (removeUserFavoriteTheme db u eid true).sends = some 500 ∧
      (removeUserFavoriteTheme db u eid true).logs ≠ []) ∧
    (firstStatus (addUserFavoritePlugin db u eid true).sends = some 500 ∧
      (addUserFavoritePlugin db u eid true).logs ≠ []) ∧
    (firstStatus (removeUserFavoritePlugin db u eid true).sends = some 500 ∧
      (removeUserFavoritePlugin db u eid true).logs ≠ []) ∧
    ((getUserThemes db u q sess true).status = 403 ∧
      (getUserThemes db u q sess true).logs = []) ∧
    ((getUserFavoriteThemes db u q sess true).status = 403 ∧
      (getUserFavoriteThemes db u q sess true).logs = []) ∧
    ((getUserFavoritePlugins db u q sess true).status = 403 ∧
      (getUserFavoritePlugins db u q sess true).logs = []) := by
  refine ⟨?_, ?_, ?_, ?_, ?_, ?_, ?_⟩
  · simp [addUserFavoriteTheme, firstStatus]
  · simp [removeUserFavoriteTheme, firstStatus]
  · simp [addUserFavoritePlugin, firstStatus]
  · simp [removeUserFavoritePlugin, firstStatus]
  · cases h : fetchAuthOk q sess u <;> simp [getUserThemes, h]
  · cases h : fetchAuthOk q sess u <;> simp [getUserFavoriteThemes, h]
  · cases h : fetchAuthOk q sess u <;> simp [getUserFavoritePlugins, h]

/-- C8: when the `userId` query parameter is absent or empty, the fetch
handlers take the success path for every session user — admin status and
session id are irrelevant — and, absent an exception, never answer 403. -/
theorem fetch_no_query_success (db : DB) (u : UserData) (q : Option String)
    (sess : String) (hq : isTruthy q = false) :
    ((getUserProfile u q sess).status = 200 ∧
      (getUserProfile u q sess).data = some u) ∧
    ((getUserThemes db u q sess false).status = 200 ∧
      (getUserThemes db u q sess false).data ≠ none) ∧
    ((getUserFavoriteThemes db u q sess false).status = 200 ∧
      (getUserFavoriteThemes db u q sess false).data ≠ none) ∧
    ((getUserFavoritePlugins db u q sess false).status = 200 ∧
      (getUserFavoritePlugins db u q sess false).data ≠ none) := by
  have hauth : fetchAuthOk q sess u = true := by simp [fetchAuthOk, hq]
  simp [getUserProfile, getUserThemes, getUserFavoriteThemes,
    getUserFavoritePlugins, hauth]

/-- Witness for C8: no `userId` query parameter at all. -/
theorem fetch_no_query_success_witness :
    ((getUserProfile userW none "bob").status = 200 ∧
      (getUserProfile userW none "bob").data = some userW) ∧
    ((getUserThemes dbW userW none "bob" false).status = 200 ∧
      (getUserThemes dbW userW none "bob" false).data ≠ none) ∧
    ((getUserFavoriteThemes dbW userW none "bob" false).status = 200 ∧
      (getUserFavoriteThemes dbW userW none "bob" false).data ≠ none) ∧
    ((getUserFavoritePlugins dbW userW none "bob" false).status = 200 ∧
      (getUserFavoritePlugins dbW userW none "bob" false).data ≠ none) :=
  fetch_no_query_success dbW userW none "bob" (by decide)

/-- C9: the data a fetch handler returns is determined by the session user,
never by the `userId` query value: two authorized runs differing only in the
query return identical results, and the returned rows are exactly those
filtered by `userData.id`. -/
theorem fetch_data_independent_of_query (db : DB) (u : UserData)
    (q1 q2 : Option String) (sess : String) (dbFail : Bool)
    (h1 : fetchAuthOk q1 sess u = true) (h2 : fetchAuthOk q2 sess u = true) :
    getUserProfile u q1 sess = getUserProfile u q2 sess ∧
    getUserThemes db u q1 sess dbFail = getUserThemes db u q2 sess dbFail ∧
    getUserFavoriteThemes db u q1 sess dbFail =
      getUserFavoriteThemes db u q2 sess dbFail ∧
    getUserFavoritePlugins db u q1 sess dbFail =
      getUserFavoritePlugins db u q2 sess dbFail ∧
    (getUserThemes db u q1 sess false).data =
      some (db.themes.filter (fun t => t.userId == u.id)) ∧
    (getUserFavoriteThemes db u q1 sess false).data =
      some ((db.favoriteThemes.filter (fun f => f.userId == u.id)).map
        (fun f => (f, db.themes.find? (fun t => t.id == f.id)))) ∧
    (getUserFavoritePlugins db u q1 sess false).data =
      some ((db.favoritePlugins.filter (fun f => f.userId == u.id)).map
        (fun f => (f, db.plugins.find? (fun p => p.id == f.id)))) := by
  simp [getUserProfile, getUserThemes, getUserFavoriteThemes,
    getUserFavoritePlugins, h1, h2]

/-- An admin session user, for witnesses. -/
def adminW : UserData := ⟨"dana", true⟩

/-- Witness for C9: admin "dana" querying "alice"'s id versus no query. -/
theorem fetch_data_independent_of_query_witness :
    getUserProfile adminW (some "alice") "dana" = getUserProfile adminW none "dana" ∧
    getUserThemes dbW adminW (some "alice") "dana" false =
      getUserThemes dbW adminW none "dana" false ∧
    getUserFavoriteThemes dbW adminW (some "alice") "dana" false =
      getUserFavoriteThemes dbW adminW none "dana" false ∧
    getUserFavoritePlugins dbW adminW (some "alice") "dana" false =
      getUserFavoritePlugins dbW adminW none "dana" false ∧
    (getUserThemes dbW adminW (some "alice") "dana" false).data =
      some (dbW.themes.filter (fun t => t.userId == adminW.id)) ∧
    (getUserFavoriteThemes dbW adminW (some "alice") "dana" false).data =
      some ((dbW.favoriteThemes.filter (fun f => f.userId == adminW.id)).map
        (fun f => (f, dbW.themes.find? (fun t => t.id == f.id)))) ∧
    (getUserFavoritePlugins dbW adminW (some "alice") "dana" false).data =
      some ((dbW.favoritePlugins.filter (fun f => f.userId == adminW.id)).map
        (fun f => (f, dbW.plugins.find? (fun p => p.id == f.id)))) :=
  fetch_data_independent_of_query dbW adminW (some "alice") none "dana" false
    (by decide) (by decide)

/-- C10: removing a favorite whose parent entity no longer exists still
succeeds with 200: the join row is deleted and, the parent lookup having
returned nothing, no `favoritesCount` decrement is performed on any row. -/
theorem remove_orphan_favorite_succeeds (db : DB) (u : UserData) (eid : String) :
    ((∃ f ∈ db.favoriteThemes, f.userId = u.id ∧ f.id = eid) →
      (∀ t ∈ db.themes, t.id ≠ eid) →
      firstStatus (removeUserFavoriteTheme db u eid false).sends = some 200 ∧
        (removeUserFavoriteTheme db u eid false).db.favoriteThemes =
          db.favoriteThemes.eraseP (fun f => f.userId == u.id && f.id == eid) ∧
        (removeUserFavoriteTheme db u eid false).db.themes = db.themes) ∧
    ((∃ f ∈ db.favoritePlugins, f.userId = u.id ∧ f.id = eid) →
      (∀ p ∈ db.plugins, p.id ≠ eid) →
      firstStatus (removeUserFavoritePlugin db u eid false).sends = some 200 ∧
        (removeUserFavoritePlugin db u eid false).db.favoritePlugins =
          db.favoritePlugins.eraseP (fun f => f.userId == u.id && f.id == eid) ∧
        (removeUserFavoritePlugin db u eid false).db.plugins = db.plugins) := by
  constructor
  · rintro ⟨f, hf, hfu, hfi⟩ hnone
    cases hffind : db.favoriteThemes.find?
        (fun g => g.userId == u.id && g.id == eid) with
    | none =>
      have h2 := List.find?_eq_none.mp hffind f hf
      simp [hfu, hfi] at h2
    | some f0 =>
      cases hfind : db.themes.find? (fun t => t.id == eid) with
      | some t0 =>
        have hpa := List.find?_some hfind
        simp at hpa
        exact absurd hpa (hnone t0 (List.mem_of_find?_eq_some hfind))
      | none =>
        refine ⟨?_, ?_, ?_⟩ <;>
          simp [removeUserFavoriteTheme, removeFavoriteThemeTxn, hffind, hfind,
            firstStatus]
  · rintro ⟨f, hf, hfu, hfi⟩ hnone
    cases hffind : db.favoritePlugins.find?
        (fun g => g.userId == u.id && g.id == eid) with
    | none =>
      have h2 := List.find?_eq_none.mp hffind f hf
      simp [hfu, hfi] at h2
    | some f0 =>
      cases hfind : db.plugins.find? (fun p => p.id == eid) with
      | some p0 =>
        have hpa := List.find?_some hfind
        simp at hpa
        exact absurd hpa (hnone p0 (List.mem_of_find?_eq_some hfind))
      | none =>
        refine ⟨?_, ?_, ?_⟩ <;>
          simp [removeUserFavoritePlugin, removeFavoritePluginTxn, hffind, hfind,
            firstStatus]

/-- A store holding favorite rows whose parent entities are gone, for the C10
witness. -/
def dbX : DB :=
  { themes := [],
    plugins := [],
    favoriteThemes := [⟨"alice", "t1"⟩],
    favoritePlugins := [⟨"alice", "p1"⟩] }

/-- Witness for C10: "alice"'s favorites point at deleted entities. -/
theorem remove_orphan_favorite_succeeds_witness :
    (firstStatus (removeUserFavoriteTheme dbX aliceW "t1" false).sends = some 200 ∧
      (removeUserFavoriteTheme dbX aliceW "t1" false).db.favoriteThemes =
        dbX.favoriteThemes.eraseP (fun f => f.userId == aliceW.id && f.id == "t1") ∧
      (removeUserFavoriteTheme dbX aliceW "t1" false).db.themes = dbX.themes) ∧
    (firstStatus (removeUserFavoritePlugin dbX aliceW "p1" false).sends = some 200 ∧
      (removeUserFavoritePlugin dbX aliceW "p1" false).db.favoritePlugins =
        dbX.favoritePlugins.eraseP (fun f => f.userId == aliceW.id && f.id == "p1") ∧
      (removeUserFavoritePlugin dbX aliceW "p1" false).db.plugins = dbX.plugins) :=
  ⟨(remove_orphan_favorite_succeeds dbX aliceW "t1").1 (by decide) (by decide),
   (remove_orphan_favorite_succeeds dbX aliceW "p1").2 (by decide) (by decide)⟩

end UserController
